import Mathlib

/-!
# NGNX.http.Server — shallow embedding

A shallow embedding of the route hot-reload registry and CORS configuration
of the NGNX HTTP server (`src/index.js`, main variant), together with
theorems settling the specification claims.

Modelling conventions:
* Handlers are abstract labels (`String`); the express router stack
  (`app._router.stack`) is a `List String`.  Express lazily creates the
  router with two base layers (`query`, `expressInit`) on the first
  registration; `ServerState.router` records whether `app._router` exists.
* `node` path functions are modelled over `String` (backed by `List Char`
  operations so every definition reduces in the kernel).  `path.join` is
  modelled as concatenation with a separator; normalization of duplicate
  separators is not modelled (no claim depends on it).
* `NGN.util.pathExists` is `fs.existsSync`, which resolves relative paths
  against the working directory: `pathExists env p = env.fsFiles
  (pathResolve env.cwd p)` with `env.fsFiles` a predicate on paths.
* A JavaScript `TypeError` (reading a property of `undefined`) is modelled
  by `Except.error ()`.
* JS objects used as string-keyed maps (`managedroutes`, `monitors`) are
  association lists in insertion order; `delete` followed by re-insertion
  moves a key to the end, as in JS.
-/

deriving instance DecidableEq for Except

namespace NgnxHttp

/-- Model of `path.isAbsolute`: the path starts with a separator. -/
def isAbsolute (p : String) : Bool :=
  match p.data with
  | '/' :: _ => true
  | _ => false

/-- Model of `path.resolve(p)` against a working directory `cwd`. -/
def pathResolve (cwd p : String) : String :=
  if isAbsolute p then p else cwd ++ "/" ++ p

/-- Model of `path.join(a, b)` (separator concatenation). -/
def pathJoin (a b : String) : String :=
  a ++ "/" ++ b

/-- Model of `path.basename`: the final path segment. -/
def basename (p : String) : String :=
  ⟨(p.data.reverse.takeWhile (fun c => !(c == '/'))).reverse⟩

/-- Model of `path.dirname`: everything before the final segment. -/
def dirname (p : String) : String :=
  let rev := p.data.reverse
  let b := rev.takeWhile (fun c => !(c == '/'))
  match rev.drop b.length with
  | [] => "."
  | [_] => "/"
  | _ :: tail => ⟨tail.reverse⟩

/-- Model of `path.extname`: the extension of the final segment, empty for a
dotfile or an extensionless name. -/
def extname (p : String) : String :=
  let b := (basename p).data
  let after := b.reverse.takeWhile (fun c => !(c == '.'))
  if after.length = b.length then ""
  else if b.length - after.length - 1 = 0 then ""
  else ⟨b.drop (b.length - after.length - 1)⟩

/-- The environment a server runs against: working directory, which absolute
paths exist on disk, and what handlers `require(mod)(app)` would register
for a given module path (the current file contents). -/
structure Env where
  cwd : String
  fsFiles : String → Bool
  moduleHandlers : String → List String

/-- `NGN.util.pathExists` (`fs.existsSync`): relative paths are resolved
against the working directory. -/
def pathExists (env : Env) (p : String) : Bool :=
  env.fsFiles (pathResolve env.cwd p)

/-- Association-list lookup (JS `obj[k]`, `undefined` as `none`). -/
def lookupAssoc {α : Type} (l : List (String × α)) (k : String) : Option α :=
  match l with
  | [] => none
  | (k', v) :: rest => if k' = k then some v else lookupAssoc rest k

/-- Association-list insert-or-replace (JS `obj[k] = v`): replacing keeps the
key's position, inserting appends. -/
def updateAssoc {α : Type} (l : List (String × α)) (k : String) (v : α) : List (String × α) :=
  match l with
  | [] => [(k, v)]
  | (k', v') :: rest => if k' = k then (k, v) :: rest else (k', v') :: updateAssoc rest k v

/-- Association-list removal (JS `delete obj[k]`). -/
def removeAssoc {α : Type} (l : List (String × α)) (k : String) : List (String × α) :=
  l.filter (fun e => !(e.1 == k))

/-- The mutable server state: `refresh` flag, whether `app._router` exists,
the router stack (`this.routes`), `managedroutes` (file → inclusive index
range) and `monitors` (directory → watched file list). -/
structure ServerState where
  refresh : Bool
  router : Bool
  routes : List String
  managedroutes : List (String × Int × Int)
  monitors : List (String × List String)
deriving DecidableEq

/-- Constructor state: `refresh` is `NGN.coalesce(cfg.refresh, true)`; all
collections start empty and the express router is not yet created. -/
def initServerState (cfgRefresh : Option Bool) : ServerState :=
  { refresh := cfgRefresh.getD true
    router := false
    routes := []
    managedroutes := []
    monitors := [] }

/-- The two base layers express installs when `app._router` is created. -/
def baseMiddleware : List String :=
  ["query", "expressInit"]

/-- JS `Array.prototype.splice(start, deleteCount)` restricted to deletion:
negative start counts from the end, and both arguments are clamped. -/
def jsSplice {α : Type} (l : List α) (start delCount : Int) : List α :=
  let len : Int := l.length
  let s := (if start < 0 then max (len + start) 0 else min start len).toNat
  let d := (max delCount 0).toNat
  l.take s ++ l.drop (s + d)

/-- The `monitors` collection produced by `monitor(filepath)`: guarded by
`refresh`; lazily creates the watch group for the file's directory and
registers the file in its watched set.  The asynchronous
`watch.createMonitor` callback (which stores the watcher handle and pushes
the file) is folded into the creation step; only membership of the watched
set is observable to the rest of the model. -/
def monitorMonitors (s : ServerState) (filepath : String) : List (String × List String) :=
  if !s.refresh then s.monitors
  else
    let dir := dirname filepath
    let ms :=
      match lookupAssoc s.monitors dir with
      | none => s.monitors ++ [(dir, [filepath])]
      | some _ => s.monitors
    match lookupAssoc ms dir with
    | none => ms
    | some files =>
      if filepath ∈ files then ms
      else updateAssoc ms dir (files ++ [filepath])

/-- `monitor(filepath)` mutates only the `monitors` collection. -/
def monitor (s : ServerState) (filepath : String) : ServerState :=
  { s with monitors := monitorMonitors s filepath }

/-- The default-extension step of `createRoutes`: append `.js` when the
path's extension differs. -/
def withDefaultExt (mod : String) : String :=
  if extname mod ≠ ".js" then mod ++ ".js" else mod

/-- The path-candidate rewriting inside `createRoutes` for a string argument:
the path as given; with `.js` appended if the extension differs; re-joined
onto the working directory; and (when that exists) joined onto the working
directory once more. -/
def resolveRoutePath (env : Env) (mod : String) : String :=
  if pathExists env mod then mod
  else
    let m1 := withDefaultExt mod
    let m2 := if !(pathExists env m1) then pathJoin env.cwd m1 else m1
    if pathExists env m2 then pathJoin env.cwd m2 else m2

/-- `createRoutes(mod)` for a string argument: resolve the path; if the final
candidate exists, invalidate the require cache, execute the module against
the app (appending its handlers), record its range in `managedroutes` and
start monitoring it; otherwise do nothing. -/
def createRoutesStr (env : Env) (s : ServerState) (mod0 : String) : ServerState :=
  let mod := resolveRoutePath env mod0
  if pathExists env mod then
    let before : Int := if s.router then (s.routes.length : Int) - 2 else 0
    let routes' := (if s.router then s.routes else baseMiddleware) ++ env.moduleHandlers mod
    let s' :=
      { s with
          router := true
          routes := routes'
          managedroutes := updateAssoc s.managedroutes mod (before + 2, (routes'.length : Int) - 1) }
    monitor s' mod
  else s

/-- `createRoutes(mod)` for a directly-callable argument: the function is
invoked against the app (appending its handlers); the registration is not
tracked and nothing is monitored. -/
def createRoutesFn (s : ServerState) (hs : List String) : ServerState :=
  { s with
      router := true
      routes := (if s.router then s.routes else baseMiddleware) ++ hs }

/-- `reindexRoutes(start, end)`: for every tracked module whose range start is
strictly greater than `rend`, the code subtracts `rstart` from the start
bound and `rend` from the end bound. -/
def reindexRoutes (managed : List (String × Int × Int)) (rstart rend : Int) :
    List (String × Int × Int) :=
  managed.map fun e =>
    if e.2.1 > rend then (e.1, e.2.1 - rstart, e.2.2 - rend) else e

/-- `reloadRoutes(f)`: guarded by `refresh`; splices the module's recorded
range out of the router stack, reindexes the remaining ranges, deletes the
module's entry and re-runs `createRoutes(f)`.  When `f` has no entry in
`managedroutes` the JS dereference `this.managedroutes[f][0]` throws a
`TypeError`, modelled as `Except.error ()`. -/
def reloadRoutes (env : Env) (s : ServerState) (f : String) : Except Unit ServerState :=
  if !s.refresh then .ok s
  else
    match lookupAssoc s.managedroutes f with
    | none => .error ()
    | some r =>
      let s1 := { s with routes := jsSplice s.routes r.1 (r.2 - r.1 + 1) }
      let s2 := { s1 with managedroutes := reindexRoutes s1.managedroutes r.1 r.2 }
      let s3 := { s2 with managedroutes := removeAssoc s2.managedroutes f }
      .ok (createRoutesStr env s3 f)

/-- `fileFilter(dir)` applied to a path: the watch layer reports a file only
when its directory has a watch group and the file is in its watched set. -/
def fileFilter (s : ServerState) (dir f : String) : Bool :=
  match lookupAssoc s.monitors dir with
  | none => false
  | some files => f ∈ files

/-- A raw filesystem notification (`created`/`changed`/`removed` are wired
identically): if the file passes the watch filter, `reloadRoutes(f)` runs;
otherwise the event is dropped. -/
def dispatchEvent (env : Env) (s : ServerState) (dir f : String) : Except Unit ServerState :=
  if fileFilter s dir f then reloadRoutes env s f else .ok s

/-- The set of module files `reloadRoutes` is invoked on by one filesystem
event: the reported file itself when it passes the filter, nothing
otherwise. -/
def reloadedModules (s : ServerState) (dir f : String) : List String :=
  if fileFilter s dir f then [f] else []

/-- The operations the embedding application and the watch layer can perform
against a running server. -/
inductive ServerOp where
  | createStr (mod : String)
  | createFn (hs : List String)
  | fsEvent (dir f : String)
deriving DecidableEq

/-- One operation step.  A `TypeError` escaping `reloadRoutes` crashes the
process; the state (in particular `monitors`) is left as it was. -/
def applyOp (env : Env) (s : ServerState) : ServerOp → ServerState
  | .createStr m => createRoutesStr env s m
  | .createFn hs => createRoutesFn s hs
  | .fsEvent dir f =>
    match dispatchEvent env s dir f with
    | .ok s' => s'
    | .error _ => s

/-- Run a sequence of operations. -/
def runOps (env : Env) (s : ServerState) : List ServerOp → ServerState
  | [] => s
  | op :: rest => runOps env (applyOp env s op) rest

/-- The dependency-file-to-root-module relation (spec §3 Association). -/
structure DepAssoc where
  edges : List (String × String)
deriving DecidableEq

/-- Modelled from the spec: `rootsOf` of the DependencyAssociator (§4.4) is
absent from `src/` — only the dead `getModules` helper exists there — so the
root-set lookup is taken from the spec's words: all route-module paths
associated with the given dependency file. -/
def rootsOf (a : DepAssoc) (f : String) : List String :=
  (a.edges.filter (fun e => e.1 == f)).map Prod.snd

/-- A string-or-array-or-absent configuration value (an untyped JS `cfg`
field that may hold a string or an array). -/
inductive CfgList where
  | absent
  | one (s : String)
  | many (l : List String)
deriving DecidableEq

/-- The constructor's normalization
`cfg.x ? (Array.isArray(cfg.x) ? cfg.x : [cfg.x]) : []`: an absent or falsy
(empty-string) value yields `[]`, a single string is wrapped, an array is
kept as is. -/
def normalizeCfgList : CfgList → List String
  | .absent => []
  | .one s => if s = "" then [] else [s]
  | .many l => l

/-- `cfg.maxAge || cfg.maxage || null` collapsed to one option: zero is
falsy in JS, so it disables the header like absence does. -/
def normalizeMaxAge : Option Nat → Option Nat
  | none => none
  | some n => if n = 0 then none else some n

/-- The CORS configuration stored by the constructor. -/
structure CorsConfig where
  whitelist : List String
  blacklist : List String
  allowedMethods : List String
  allowedHeaders : List String
  exposedHeaders : List String
  credentials : Bool
  maxAge : Option Nat
deriving DecidableEq

/-- Assembles the CORS configuration exactly as the constructor does:
list-like options are normalized, `credentials` is
`NGN.coalesce(cfg.credentials, false)`, `maxAge` keeps JS falsiness. -/
def mkCorsConfig (w b am ah ex : CfgList) (cred : Option Bool) (ma : Option Nat) : CorsConfig :=
  { whitelist := normalizeCfgList w
    blacklist := normalizeCfgList b
    allowedMethods := normalizeCfgList am
    allowedHeaders := normalizeCfgList ah
    exposedHeaders := normalizeCfgList ex
    credentials := cred.getD false
    maxAge := normalizeMaxAge ma }

/-- A CORS decision: allow with an allow-origin value, or deny by omitting
the allow-origin header. -/
inductive CorsDecision where
  | allowOrigin (origin : String)
  | deny
deriving DecidableEq

/-- Modelled from the spec: the per-request origin decision of the
CorsPolicyResolver (§4.6, rules 1-3).  The middleware consuming
`whitelist`/`blacklist` is not under `src/` — the server only stores the
configuration and exposes the external cors engine — so the priority order
(whitelist, then blacklist, then echo) is taken from the spec's words. -/
def corsOriginDecision (cfg : CorsConfig) (requestOrigin : String) : CorsDecision :=
  if cfg.whitelist ≠ [] then
    if requestOrigin ∈ cfg.whitelist then .allowOrigin requestOrigin else .deny
  else if cfg.blacklist ≠ [] then
    if requestOrigin ∈ cfg.blacklist then .deny else .allowOrigin requestOrigin
  else .allowOrigin requestOrigin

/-- Comma-join of a list of header values. -/
def joinValues : List String → String
  | [] => ""
  | [x] => x
  | x :: xs => x ++ "," ++ joinValues xs

/-- An HTTP response skeleton: status, body and emitted headers. -/
structure HttpResponse where
  status : Nat
  body : String
  headers : List (String × String)
deriving DecidableEq

/-- Modelled from the spec: preflight detection — an `OPTIONS` request
carrying CORS metadata (an origin or a requested-headers header). -/
def isPreflight (method : String) (origin requestedHeaders : Option String) : Bool :=
  method == "OPTIONS" && (origin.isSome || requestedHeaders.isSome)

/-- Whether any non-default CORS configuration key is set, which activates
CORS handling for the entire server. -/
def corsActive (cfg : CorsConfig) : Bool :=
  !cfg.whitelist.isEmpty || !cfg.blacklist.isEmpty || !cfg.allowedMethods.isEmpty ||
    !cfg.allowedHeaders.isEmpty || !cfg.exposedHeaders.isEmpty || cfg.credentials ||
    cfg.maxAge.isSome

/-- Modelled from the spec: the headers of a preflight response (§4.6) —
allow-origin per the origin decision; allow-methods verbatim when
configured; allow-headers verbatim when configured, otherwise mirroring the
request's requested headers; expose-headers, allow-credentials and max-age
only when configured. -/
def preflightHeaders (cfg : CorsConfig) (origin requestedHeaders : Option String) :
    List (String × String) :=
  (match corsOriginDecision cfg (origin.getD "") with
    | .allowOrigin o => [("Access-Control-Allow-Origin", o)]
    | .deny => []) ++
  (if cfg.allowedMethods.isEmpty then []
    else [("Access-Control-Allow-Methods", joinValues cfg.allowedMethods)]) ++
  (if cfg.allowedHeaders.isEmpty then
      match requestedHeaders with
      | some h => [("Access-Control-Allow-Headers", h)]
      | none => []
    else [("Access-Control-Allow-Headers", joinValues cfg.allowedHeaders)]) ++
  (if cfg.exposedHeaders.isEmpty then []
    else [("Access-Control-Expose-Headers", joinValues cfg.exposedHeaders)]) ++
  (if cfg.credentials then [("Access-Control-Allow-Credentials", "true")] else []) ++
  (match cfg.maxAge with
    | some n => [("Access-Control-Max-Age", toString n)]
    | none => [])

/-- Modelled from the spec: the preflight response — status 204, empty
body, the CORS headers. -/
def preflightResponse (cfg : CorsConfig) (origin requestedHeaders : Option String) :
    HttpResponse :=
  { status := 204, body := "", headers := preflightHeaders cfg origin requestedHeaders }

/-- Modelled from the spec: the middleware-level short-circuit — when CORS
is active and the request is a preflight, the normal handler chain is
skipped and the preflight response is returned; `none` means the request
falls through to the handler chain. -/
def corsShortCircuit (cfg : CorsConfig) (method : String)
    (origin requestedHeaders : Option String) : Option HttpResponse :=
  if corsActive cfg && isPreflight method origin requestedHeaders then
    some (preflightResponse cfg origin requestedHeaders)
  else none

/-- The constructor value `cfg.poweredby || 'NGN'`: a missing or falsy
option falls back to the default brand. -/
def poweredbyValue (cfgPoweredby : Option String) : String :=
  match cfgPoweredby with
  | none => "NGN"
  | some s => if s = "" then "NGN" else s

/-- The getter `poweredbyHeader`: `this.poweredby || null`. -/
def poweredbyHeader (p : String) : Option String :=
  if p = "" then none else some p

/-- The `x-powered-by` middleware installed by `start()`: when the
`poweredbyHeader` getter yields a value, every response carries the header
with that value; otherwise the header is disabled. -/
def startPoweredbyHeader (cfgPoweredby : Option String) : Option (String × String) :=
  match poweredbyHeader (poweredbyValue cfgPoweredby) with
  | some v => some ("x-powered-by", v)
  | none => none

/-- JS truthiness of the `certificate` option: set and non-empty. -/
def certTruthy : Option String → Bool
  | none => false
  | some s => s != ""

/-- `portnumber`: `NGN.coalesce(cfg.port, cfg.certificate ? 443 : 80)` —
the explicit port when given (including 0), else 443 with a certificate and
80 without one. -/
def portnumber (cfgPort : Option Int) (cfgCertificate : Option String) : Int :=
  match cfgPort with
  | some p => p
  | none => if certTruthy cfgCertificate then 443 else 80

/-- How `start()` binds the listener: a non-positive `portnumber` requests
an OS-assigned ephemeral port, any other value is bound as given. -/
inductive ListenMode where
  | ephemeral
  | fixed (p : Int)
deriving DecidableEq

/-- The port-selection branch of `start()`. -/
def startListenMode (pn : Int) : ListenMode :=
  if pn ≤ 0 then .ephemeral else .fixed pn

/-! ## Concrete scenarios used by the claim theorems -/

/-- An environment in which no file exists (used for pure index bookkeeping). -/
def c1Env : Env :=
  { cwd := "/app", fsFiles := fun _ => false, moduleHandlers := fun _ => [] }

/-- Two tracked modules, A at range `[0,2]` and B at `[3,5]`, over a
six-handler router stack. -/
def c1State : ServerState :=
  { refresh := true
    router := true
    routes := ["h0", "h1", "h2", "h3", "h4", "h5"]
    managedroutes := [("A", 0, 2), ("B", 3, 5)]
    monitors := [] }

/-- Environment for the reload-ordering scenario: module `/app/m.js`
initially contributes handlers `m1, m2`. -/
def c2EnvA : Env :=
  { cwd := "/app"
    fsFiles := fun p => p == "/app/m.js"
    moduleHandlers := fun p => if p == "/app/m.js" then ["m1", "m2"] else [] }

/-- The same file after an edit: it now contributes the single handler
`m1x`. -/
def c2EnvB : Env :=
  { cwd := "/app"
    fsFiles := fun p => p == "/app/m.js"
    moduleHandlers := fun p => if p == "/app/m.js" then ["m1x"] else [] }

/-- Server after `createRoutes("/app/m.js")` followed by a callable
registration appending a catch-all handler: the router stack is
`[query, expressInit, m1, m2, catchall]` with the module tracked at
`[2,3]`. -/
def c2Loaded : ServerState :=
  createRoutesFn (createRoutesStr c2EnvA (initServerState none) "/app/m.js") ["catchall"]

/-- A server with two tracked route modules in `/app`, both registered in
the directory's watched set; `/app/dep.js` is a shared dependency of both
and is not in the watched set (only `createRoutes` arguments ever are). -/
def c5State : ServerState :=
  { refresh := true
    router := true
    routes := ["query", "expressInit", "r1h", "r2h"]
    managedroutes := [("/app/r1.js", 2, 2), ("/app/r2.js", 3, 3)]
    monitors := [("/app", ["/app/r1.js", "/app/r2.js"])] }

/-- Environment for the dependency scenario. -/
def c5Env : Env :=
  { cwd := "/app"
    fsFiles := fun p => p == "/app/r1.js" || p == "/app/r2.js" || p == "/app/dep.js"
    moduleHandlers := fun p =>
      if p == "/app/r1.js" then ["r1h"] else if p == "/app/r2.js" then ["r2h"] else [] }

/-- The dependency association of the scenario: `/app/dep.js` was loaded by
both route modules. -/
def c5Assoc : DepAssoc :=
  ⟨[("/app/dep.js", "/app/r1.js"), ("/app/dep.js", "/app/r2.js")]⟩

/-- Environment in which the tracked module `/app/z.js` exists and registers
one handler. -/
def c6EnvHere : Env :=
  { cwd := "/app"
    fsFiles := fun p => p == "/app/z.js"
    moduleHandlers := fun p => if p == "/app/z.js" then ["zing"] else [] }

/-- The same environment after the file is renamed away. -/
def c6EnvGone : Env :=
  { cwd := "/app", fsFiles := fun _ => false, moduleHandlers := fun _ => [] }

/-- Server after `createRoutes("/app/z.js")`: the module is tracked at
`[2,2]` and watched. -/
def c6Registered : ServerState :=
  createRoutesStr c6EnvHere (initServerState none) "/app/z.js"

/-- The state after the `Removed` event is processed: the range is spliced
out and the `managedroutes` entry is gone, but the file is still in the
directory's watched set. -/
def c6AfterRemoved : ServerState :=
  { refresh := true
    router := true
    routes := ["query", "expressInit"]
    managedroutes := []
    monitors := [("/app", ["/app/z.js"])] }

/-- The spec's whitelist example: `whitelist = ["a.com"]`, everything else
default. -/
def c7Cfg : CorsConfig :=
  mkCorsConfig (.many ["a.com"]) .absent .absent .absent .absent none none

/-- The CORS configuration of the repository's sanity test (max-age
omitted): restricted methods and headers, credentials enabled. -/
def c8Cfg : CorsConfig :=
  mkCorsConfig .absent .absent (.many ["POST"]) (.many ["X-REQUESTED-WITH"])
    (.many ["X-TEST"]) (some true) none

/-! ## Helper lemmas -/

theorem monitor_routes (s : ServerState) (fp : String) : (monitor s fp).routes = s.routes :=
  rfl

theorem monitor_refresh (s : ServerState) (fp : String) : (monitor s fp).refresh = s.refresh :=
  rfl

theorem createRoutesStr_refresh (env : Env) (s : ServerState) (m : String) :
    (createRoutesStr env s m).refresh = s.refresh := by
  simp only [createRoutesStr]
  split <;> rfl

theorem monitorMonitors_of_refresh_false (s : ServerState) (fp : String)
    (h : s.refresh = false) : monitorMonitors s fp = s.monitors := by
  simp [monitorMonitors, h]

theorem createRoutesStr_monitors_of_refresh_false (env : Env) (s : ServerState) (m : String)
    (h : s.refresh = false) : (createRoutesStr env s m).monitors = s.monitors := by
  simp only [createRoutesStr]
  split
  · exact monitorMonitors_of_refresh_false _ _ h
  · rfl

theorem dispatchEvent_of_refresh_false (env : Env) (s : ServerState) (dir f : String)
    (h : s.refresh = false) : dispatchEvent env s dir f = .ok s := by
  simp only [dispatchEvent, reloadRoutes, h]
  split <;> rfl

theorem applyOp_of_refresh_false (env : Env) (s : ServerState) (op : ServerOp)
    (h : s.refresh = false) :
    (applyOp env s op).refresh = false ∧ (applyOp env s op).monitors = s.monitors := by
  cases op with
  | createStr m =>
    exact ⟨by rw [applyOp, createRoutesStr_refresh]; exact h,
      createRoutesStr_monitors_of_refresh_false env s m h⟩
  | createFn hs => exact ⟨h, rfl⟩
  | fsEvent dir f =>
    rw [applyOp, dispatchEvent_of_refresh_false env s dir f h]
    exact ⟨h, rfl⟩

theorem runOps_monitors_of_refresh_false (env : Env) (ops : List ServerOp) :
    ∀ s : ServerState, s.refresh = false → (runOps env s ops).monitors = s.monitors := by
  induction ops with
  | nil => intro s _; rfl
  | cons op rest ih =>
    intro s h
    rw [runOps, ih _ (applyOp_of_refresh_false env s op h).1]
    exact (applyOp_of_refresh_false env s op h).2

/-! ## Claim theorems -/

/-- C1 (code_bug): `reindexRoutes` is meant to shift every later range down
by the removed length `end - start + 1`, but the code subtracts `start` from
the start bound and `end` from the end bound.  At the spec's own example —
modules A at `[0,2]` and B at `[3,5]`, removing A's range — the code records
B at `[3,3]`, not at `[0,2]` as the claim states, both through
`reindexRoutes` directly and through the `reloadRoutes` removal pipeline. -/
theorem c1_reindex_shift_bug :
    reindexRoutes [("A", 0, 2), ("B", 3, 5)] 0 2 = [("A", 0, 2), ("B", 3, 3)] ∧
    (reloadRoutes c1Env c1State "A").map ServerState.managedroutes = .ok [("B", 3, 3)] ∧
    lookupAssoc (reindexRoutes [("A", 0, 2), ("B", 3, 5)] 0 2) "B" ≠ some (0, 2) := by
  decide

/-- C2 (counterexample): reloading a module whose range is not at the tail
does not move the fresh slice back to the module's original position.  With
the stack `[query, expressInit, m1, m2, catchall]` and module `/app/m.js`
tracked at `[2,3]`, a change event reloads the module to the tail, yielding
`[query, expressInit, catchall, m1x]` — the catch-all handler now precedes
the module's handlers, so the claimed order preservation fails. -/
theorem c2_reload_order_counterexample :
    c2Loaded.routes = ["query", "expressInit", "m1", "m2", "catchall"] ∧
    (dispatchEvent c2EnvB c2Loaded "/app" "/app/m.js").map ServerState.routes =
      .ok ["query", "expressInit", "catchall", "m1x"] ∧
    (dispatchEvent c2EnvB c2Loaded "/app" "/app/m.js").map ServerState.routes ≠
      .ok ["query", "expressInit", "m1x", "catchall"] := by
  decide

/-- C2 (amended): a reload splices the module's recorded range out of the
router stack and appends the module's fresh handlers at the tail; no
re-insertion at the original start position happens, so relative order
across modules is preserved only when the reloaded module's range was
already at the tail. -/
theorem c2_reload_appends_at_tail (env : Env) (s : ServerState) (f : String) (a b : Int)
    (hr : s.refresh = true)
    (hm : lookupAssoc s.managedroutes f = some (a, b))
    (hx : pathExists env f = true) :
    (reloadRoutes env s f).map ServerState.routes =
      .ok ((if s.router then jsSplice s.routes a (b - a + 1) else baseMiddleware)
        ++ env.moduleHandlers f) := by
  simp [reloadRoutes, hr, hm, createRoutesStr, resolveRoutePath, hx, Except.map, monitor]

/-- Witness for `c2_reload_appends_at_tail` at the concrete reload
scenario. -/
theorem c2_reload_appends_at_tail_witness :
    c2Loaded.refresh = true ∧
    lookupAssoc c2Loaded.managedroutes "/app/m.js" = some (2, 3) ∧
    pathExists c2EnvB "/app/m.js" = true ∧
    (reloadRoutes c2EnvB c2Loaded "/app/m.js").map ServerState.routes =
      .ok ((if c2Loaded.router then jsSplice c2Loaded.routes 2 (3 - 2 + 1) else baseMiddleware)
        ++ c2EnvB.moduleHandlers "/app/m.js") :=
  ⟨by decide, by decide, by decide,
    c2_reload_appends_at_tail c2EnvB c2Loaded "/app/m.js" 2 3 (by decide) (by decide) (by decide)⟩

/-- C3 (confirmed): when a string argument to `createRoutes` resolves to no
existing file under the resolution sequence — the path as given, the path
with the default extension, and the path rejoined onto the working
directory — the call leaves the server state unchanged: no handlers are
added, no module is tracked, no monitor is created, and no error is
raised. -/
theorem c3_unresolvable_path_noop (env : Env) (s : ServerState) (m : String)
    (h1 : pathExists env m = false)
    (h2 : pathExists env (withDefaultExt m) = false)
    (h3 : pathExists env (pathJoin env.cwd (withDefaultExt m)) = false) :
    createRoutesStr env s m = s := by
  simp [createRoutesStr, resolveRoutePath, h1, h2, h3]

/-- Witness for `c3_unresolvable_path_noop`: an empty filesystem and the
path `ghost`. -/
theorem c3_unresolvable_path_noop_witness :
    pathExists c1Env "ghost" = false ∧
    pathExists c1Env (withDefaultExt "ghost") = false ∧
    pathExists c1Env (pathJoin c1Env.cwd (withDefaultExt "ghost")) = false ∧
    createRoutesStr c1Env (initServerState none) "ghost" = initServerState none :=
  ⟨by decide, by decide, by decide,
    c3_unresolvable_path_noop c1Env (initServerState none) "ghost"
      (by decide) (by decide) (by decide)⟩

/-- C4 (confirmed): a server constructed with `refresh: false` never creates
a watch group: after any sequence of `createRoutes` calls (string or
callable) and filesystem events, the `monitors` collection is still
empty. -/
theorem c4_refresh_disabled_no_monitors (env : Env) (ops : List ServerOp) :
    (runOps env (initServerState (some false)) ops).monitors = [] :=
  runOps_monitors_of_refresh_false env ops (initServerState (some false)) rfl

/-- C5 (counterexample): a change event on `/app/dep.js` — a file that is
only a dependency — is dropped by the watch filter: the state is unchanged
and no module is reloaded, although `rootsOf` maps the dependency to both
route modules.  The claimed reload of exactly the root set fails. -/
theorem c5_dependency_change_counterexample :
    rootsOf c5Assoc "/app/dep.js" = ["/app/r1.js", "/app/r2.js"] ∧
    dispatchEvent c5Env c5State "/app" "/app/dep.js" = .ok c5State ∧
    reloadedModules c5State "/app" "/app/dep.js" = [] ∧
    reloadedModules c5State "/app" "/app/dep.js" ≠ rootsOf c5Assoc "/app/dep.js" := by
  decide

/-- C5 (amended): a filesystem event on a file that is not in its
directory's watched set — dependency files never are, since only
`createRoutes` arguments are registered — is ignored: the dependency
associator is never consulted, no module is reloaded and the state is
unchanged. -/
theorem c5_untracked_file_event_ignored (env : Env) (s : ServerState) (dir f : String)
    (h : fileFilter s dir f = false) :
    dispatchEvent env s dir f = .ok s ∧ reloadedModules s dir f = [] := by
  simp [dispatchEvent, reloadedModules, h]

/-- Witness for `c5_untracked_file_event_ignored` at the dependency
scenario. -/
theorem c5_untracked_file_event_ignored_witness :
    fileFilter c5State "/app" "/app/dep.js" = false ∧
    (dispatchEvent c5Env c5State "/app" "/app/dep.js" = .ok c5State ∧
      reloadedModules c5State "/app" "/app/dep.js" = []) :=
  ⟨by decide, c5_untracked_file_event_ignored c5Env c5State "/app" "/app/dep.js" (by decide)⟩

/-- C6 (code_bug): processing `Removed` unregisters the module, and the
subsequent `Created` event for the same file reaches `reloadRoutes`, which
unconditionally dereferences `this.managedroutes[f][0]`; the entry is gone,
so the callback throws a `TypeError` instead of invoking the loader — the
module never returns to the registered state. -/
theorem c6_created_after_removed_crashes :
    c6Registered.managedroutes = [("/app/z.js", 2, 2)] ∧
    dispatchEvent c6EnvGone c6Registered "/app" "/app/z.js" = .ok c6AfterRemoved ∧
    dispatchEvent c6EnvHere c6AfterRemoved "/app" "/app/z.js" = .error () := by
  decide

/-- C7 (confirmed, spec-modelled): with a non-empty whitelist the origin
decision allows exactly the whitelisted origins, echoing the allowed
origin, and denies every other origin by omitting the allow-origin value;
the blacklist — and with it the echo rule — is never consulted, since the
decision is unchanged under an arbitrary blacklist. -/
theorem c7_whitelist_decision (cfg : CorsConfig) (origin : String) (bl : List String)
    (h : cfg.whitelist ≠ []) :
    corsOriginDecision cfg origin =
      (if origin ∈ cfg.whitelist then .allowOrigin origin else .deny) ∧
    corsOriginDecision { cfg with blacklist := bl } origin = corsOriginDecision cfg origin := by
  constructor <;> simp [corsOriginDecision, h]

/-- Witness for `c7_whitelist_decision` at the spec's example:
`whitelist = ["a.com"]` and the rejected origin `b.com`, with a blacklist
that would accept it if consulted. -/
theorem c7_whitelist_decision_witness :
    c7Cfg.whitelist ≠ [] ∧
    (corsOriginDecision c7Cfg "b.com" =
        (if "b.com" ∈ c7Cfg.whitelist then .allowOrigin "b.com" else .deny) ∧
      corsOriginDecision { c7Cfg with blacklist := ["b.com"] } "b.com" =
        corsOriginDecision c7Cfg "b.com") :=
  ⟨by decide, c7_whitelist_decision c7Cfg "b.com" ["b.com"] (by decide)⟩

/-- C8 (confirmed, spec-modelled): whenever any CORS key is configured —
restricted methods, headers, credentials, or any other non-default key — a
preflight request short-circuits the handler chain with status 204 and an
empty body; and whenever allowed methods are configured they are carried
verbatim in `Access-Control-Allow-Methods`, so `["POST"]` yields the header
value `POST`. -/
theorem c8_preflight_short_circuit (cfg : CorsConfig) (method : String)
    (origin requestedHeaders : Option String)
    (h1 : corsActive cfg = true)
    (h2 : isPreflight method origin requestedHeaders = true) :
    corsShortCircuit cfg method origin requestedHeaders =
      some (preflightResponse cfg origin requestedHeaders) ∧
    (preflightResponse cfg origin requestedHeaders).status = 204 ∧
    (preflightResponse cfg origin requestedHeaders).body = "" ∧
    (cfg.allowedMethods ≠ [] →
      ("Access-Control-Allow-Methods", joinValues cfg.allowedMethods) ∈
        (preflightResponse cfg origin requestedHeaders).headers) := by
  refine ⟨by simp [corsShortCircuit, h1, h2], rfl, rfl, fun h3 => ?_⟩
  have hh : cfg.allowedMethods.isEmpty = false := by
    cases hl : cfg.allowedMethods with
    | nil => exact absurd hl h3
    | cons a l => rfl
  simp [preflightResponse, preflightHeaders, hh, List.mem_append]

/-- Witness for `c8_preflight_short_circuit` at the sanity-test
configuration and preflight request. -/
theorem c8_preflight_short_circuit_witness :
    corsActive c8Cfg = true ∧
    isPreflight "OPTIONS" (some "request.com") (some "reqHdr1,reqHdr2") = true ∧
    (corsShortCircuit c8Cfg "OPTIONS" (some "request.com") (some "reqHdr1,reqHdr2") =
        some (preflightResponse c8Cfg (some "request.com") (some "reqHdr1,reqHdr2")) ∧
      (preflightResponse c8Cfg (some "request.com") (some "reqHdr1,reqHdr2")).status = 204 ∧
      (preflightResponse c8Cfg (some "request.com") (some "reqHdr1,reqHdr2")).body = "" ∧
      (c8Cfg.allowedMethods ≠ [] →
        ("Access-Control-Allow-Methods", joinValues c8Cfg.allowedMethods) ∈
          (preflightResponse c8Cfg (some "request.com") (some "reqHdr1,reqHdr2")).headers)) :=
  ⟨by decide, by decide,
    c8_preflight_short_circuit c8Cfg "OPTIONS" (some "request.com") (some "reqHdr1,reqHdr2")
      (by decide) (by decide)⟩

/-- C9 (counterexample): constructing without a `poweredby` option does not
disable the identifying header — the constructor defaults the value to
`NGN` and `start()` installs the middleware, so responses carry
`x-powered-by: NGN`. -/
theorem c9_poweredby_default_counterexample :
    startPoweredbyHeader none = some ("x-powered-by", "NGN") ∧
    startPoweredbyHeader none ≠ none := by
  decide

/-- C9 (amended): the `x-powered-by` header is emitted on every response —
a truthy configured value is carried verbatim, and an absent (or falsy)
option falls back to the default value `NGN`; construction never disables
the header. -/
theorem c9_poweredby_header_always_emitted (cfg : Option String) (v : String)
    (hv : v ≠ "") :
    startPoweredbyHeader (some v) = some ("x-powered-by", v) ∧
    startPoweredbyHeader none = some ("x-powered-by", "NGN") ∧
    (startPoweredbyHeader cfg).isSome = true := by
  refine ⟨?_, rfl, ?_⟩
  · simp [startPoweredbyHeader, poweredbyValue, poweredbyHeader, hv]
  · cases cfg with
    | none => rfl
    | some s =>
      by_cases hs : s = "" <;>
        simp [startPoweredbyHeader, poweredbyValue, poweredbyHeader, hs]

/-- Witness for `c9_poweredby_header_always_emitted` at a configured brand
value. -/
theorem c9_poweredby_header_always_emitted_witness :
    "Acme" ≠ "" ∧
    (startPoweredbyHeader (some "Acme") = some ("x-powered-by", "Acme") ∧
      startPoweredbyHeader none = some ("x-powered-by", "NGN") ∧
      (startPoweredbyHeader none).isSome = true) :=
  ⟨by decide, c9_poweredby_header_always_emitted none "Acme" (by decide)⟩

/-- C10 (confirmed): without a `port` option the listening port defaults to
443 when a certificate is configured (truthy) and to 80 otherwise; an
explicitly configured port is used as given, and the value 0 makes
`start()` request an OS-assigned ephemeral port. -/
theorem c10_port_defaults :
    (∀ cert : Option String, portnumber none cert = if certTruthy cert then 443 else 80) ∧
    (∀ (p : Int) (cert : Option String), portnumber (some p) cert = p) ∧
    (∀ cert : Option String, startListenMode (portnumber (some 0) cert) = .ephemeral) :=
  ⟨fun _ => rfl, fun _ _ => rfl, fun _ => rfl⟩

end NgnxHttp
